import Mathlib

/-!
Shallow embedding of src/browser_use/drivers/socket.py.

The file models the request/response correlation layer
(SocketRequestManager), the connection setup of SocketBrowser, and the
remote-object handle classes (SocketContext, SocketPage, SocketFrame,
SocketElementHandle, SocketLocator, ...) of the repository, and proves the
frozen claims about them.

Modelling conventions:
- Python dictionaries become association lists of (String, Value) pairs
  (insertion ordered, unique keys when produced by the code).
- Python None / strings / bools / bytes become constructors of Value.
- The asyncio futures of SocketRequestManager are modelled by two lists:
  the keys currently registered in the self futures dictionary, and the
  list of (req_id, result) resolutions delivered to awaiting callers.
- Optional string attributes that Python treats by truthiness
  (browser_client_id, wss_url, cdp_url, returned element ids) are
  Option String; truthiness is: none and some "" are falsy.
-/

/-- Python values that travel over the socket in this driver:
None, strings, booleans, raw binary (bytes / bytearray) and dictionaries. -/
inductive Value where
  | null
  | str (s : String)
  | bool (b : Bool)
  | bytes (bs : List Nat)
  | vdict (d : List (String × Value))

/-- A Python dictionary with string keys, as an insertion-ordered
association list. -/
abbrev Dict := List (String × Value)

/-- Dictionary lookup (dict.get in Python): the entry with the given key,
if any. -/
def Dict.get (d : Dict) (k : String) : Option Value :=
  (d.find? (fun p => p.1 == k)).map (fun p => p.2)

/-- Dictionary update (d[k] = v, or a merge such as a dict literal with an
extra key): overwrites the value in place when the key is present,
otherwise appends the new entry at the end, exactly as a Python dict does. -/
def Dict.set (d : Dict) (k : String) (v : Value) : Dict :=
  if d.any (fun p => p.1 == k) then
    d.map (fun p => if p.1 == k then (k, v) else p)
  else d ++ [(k, v)]

/-- Python truthiness of an optional string: None and the empty string are
falsy, every other string is truthy. -/
def truthyStr : Option String → Bool
  | none => false
  | some s => s != ""

/-- State of a SocketRequestManager (socket.py lines 34-69):
the configured browser_client_id, the keys of the self futures
dictionary (each key holds one unresolved asyncio future), and the
results already delivered to awaiting callers via fut.set_result. -/
structure CorrState where
  bcid : Option String
  futures : List String
  resolved : List (String × Value)

/-- An inbound message on the response event, as read by _on_response via
data.get: the browser_client_id field (absent or None becomes none), the
req_id field, and the result field (absent becomes Value.null, matching
data.get returning None). -/
structure RespMsg where
  browser_client_id : Option String
  req_id : Option String
  result : Value

/-- SocketRequestManager._on_response (socket.py lines 62-69):
drop the message if its browser_client_id differs from the configured one;
otherwise, if req_id is truthy and registered in the futures dictionary,
pop that entry and resolve the future with the result field. -/
def on_response (st : CorrState) (data : RespMsg) : CorrState :=
  if data.browser_client_id ≠ st.bcid then st
  else
    match data.req_id with
    | none => st
    | some req_id =>
      if req_id ≠ "" ∧ req_id ∈ st.futures then
        { st with futures := st.futures.erase req_id,
                  resolved := st.resolved ++ [(req_id, data.result)] }
      else st

/-- SocketRequestManager.emit (socket.py lines 41-60): register a fresh
future under the generated req_id, merge req_id into the payload, and
either wrap everything in a browser_command envelope (when a
browser_client_id is configured and truthy) or emit directly under the
event name. The generated uuid4 request id is a parameter here; freshness
is a hypothesis of the theorems that need it. Returns the new manager
state together with the (event name, payload) pair handed to sio.emit. -/
def emitCall (st : CorrState) (event : String) (data : Dict) (req_id : String) :
    CorrState × (String × Value) :=
  let emit_data := Dict.set data "req_id" (Value.str req_id)
  let st' : CorrState := { st with futures := st.futures ++ [req_id] }
  match st.bcid with
  | some t =>
    if t = "" then (st', (event, Value.vdict emit_data))
    else
      let emit_data2 := Dict.set emit_data "target_browser_client_id" (Value.str t)
      (st', ("browser_command", Value.vdict
        [("browser_client_id", Value.str t),
         ("command", Value.str event),
         ("data", Value.vdict emit_data2)]))
  | none => (st', (event, Value.vdict emit_data))

/-- Processing a sequence of inbound response messages, in arrival order. -/
def processAll (st : CorrState) (msgs : List RespMsg) : CorrState :=
  msgs.foldl on_response st

/-- The result an awaiting caller received for a given request id, if its
future has been resolved. -/
def receivedResult (st : CorrState) (r : String) : Option Value :=
  (st.resolved.find? (fun p => p.1 == r)).map (fun p => p.2)

/-- One observable transport action performed by SocketBrowser.setup
(socket.py lines 85-108): the attempt to connect with an inline auth
payload, a bare connect without auth, an event emission on the raw socket
(client_auth), or a correlated bootstrap call issued through the request
manager (get_version). -/
inductive SetupEvent where
  | connectWithAuth (url : String) (auth : Dict)
  | connectBare (url : String)
  | emitEvent (event : String) (payload : Dict)
  | bootstrapCall (verb : String)

/-- The authentication payload built in SocketBrowser.setup:
clientType "python" plus the generated python client id. -/
def authData (cid : String) : Dict :=
  [("clientType", Value.str "python"), ("clientId", Value.str cid)]

/-- Python or on two optional strings (wss_url or cdp_url): the first
operand when it is truthy, the second otherwise. -/
def pyOr (a b : Option String) : Option String :=
  if truthyStr a then a else b

/-- SocketBrowser.setup (socket.py lines 85-108). Parameters: the two
configured endpoint urls, whether the sio.connect call accepts the auth
keyword (inlineAuthOk = false models the TypeError raised on a transport
whose connect signature rejects it), and the generated python client id.
Returns the ordered list of transport actions performed and the outcome:
the ValueError raised when neither url is truthy (no action is performed
in that case), or success. The bare connect of the fallback branch and the
get_version bootstrap call are external interactions assumed to succeed,
as in the scenario the spec describes. -/
def SocketBrowser.setup (wss_url cdp_url : Option String)
    (inlineAuthOk : Bool) (cid : String) :
    List SetupEvent × Except String Unit :=
  match pyOr wss_url cdp_url with
  | none => ([], Except.error "SocketBrowser requires wss_url or cdp_url for socket.io endpoint")
  | some u =>
    if u = "" then
      ([], Except.error "SocketBrowser requires wss_url or cdp_url for socket.io endpoint")
    else
      let auth := authData cid
      let connectPart :=
        if inlineAuthOk then [SetupEvent.connectWithAuth u auth]
        else [SetupEvent.connectWithAuth u auth, SetupEvent.connectBare u,
              SetupEvent.emitEvent "client_auth" auth]
      (connectPart ++ [SetupEvent.bootstrapCall "get_version"], Except.ok ())

/-- A SocketPage handle (socket.py line 275): a reference to the shared
request manager (modelled as an opaque tag) and the opaque page id. -/
structure SocketPage where
  req : Nat
  page_id : String

/-- A SocketFrame handle (socket.py line 195). -/
structure SocketFrame where
  req : Nat
  frame_id : String
  page_id : String

/-- A SocketElementHandle (socket.py line 414). -/
structure SocketElementHandle where
  req : Nat
  el_id : String
  page_id : String

/-- A SocketContext handle (socket.py line 141). -/
structure SocketContext where
  req : Nat
  ctx_id : String
  pages : List SocketPage

/-- A SocketLocator (socket.py lines 530-536): manager reference, scoping
parent id, selector, exact flag and optional page id. -/
structure SocketLocator where
  req : Nat
  parent_id : String
  selector : String
  exact : Bool
  page_id : Option String

/-- SocketPage.url (socket.py lines 326-328): returns the internal page id. -/
def SocketPage.url (p : SocketPage) : String :=
  p.page_id

/-- SocketFrame.url (socket.py lines 201-203): returns the internal frame id. -/
def SocketFrame.url (f : SocketFrame) : String :=
  f.frame_id

/-- SocketBrowser.new_context (socket.py lines 117-122): given the fields
of the new_context response (the contextId and the id of each entry of the
pages list), build SocketPage handles sharing the manager and wrap them
with the context id into a SocketContext. -/
def SocketBrowser.new_context (req : Nat) (contextId : String)
    (pageIds : List String) : SocketContext :=
  { req := req, ctx_id := contextId,
    pages := pageIds.map (fun pid => { req := req, page_id := pid }) }

/-- SocketContext.close (socket.py lines 153-154): the correlated call it
issues, as (event name, payload). -/
def SocketContext.close (c : SocketContext) : String × Dict :=
  ("close_context", [("context_id", Value.str c.ctx_id)])

/-- SocketPage.query_selector (socket.py lines 360-364): given the element
id the correlated call returned (Python None or a string; none and the
empty string are falsy), return None for a falsy id, otherwise wrap the id
with the page id into a SocketElementHandle. -/
def SocketPage.query_selector (p : SocketPage) (el_id : Option String) :
    Option SocketElementHandle :=
  match el_id with
  | none => none
  | some e =>
    if e = "" then none
    else some { req := p.req, el_id := e, page_id := p.page_id }

/-- SocketElementHandle.click (socket.py lines 480-486): the correlated
call it issues, as (event name, payload). -/
def SocketElementHandle.click (e : SocketElementHandle) (args kwargs : Value) :
    String × Dict :=
  ("element_click",
   [("element_id", Value.str e.el_id), ("page_id", Value.str e.page_id),
    ("args", args), ("kwargs", kwargs)])

/-- SocketLocator.nth (socket.py lines 554-555): builds a new locator from
the receiver, passing the index argument nowhere. -/
def SocketLocator.nth (l : SocketLocator) (index : Int) : SocketLocator :=
  { req := l.req, parent_id := l.parent_id, selector := l.selector,
    exact := l.exact, page_id := l.page_id }

/-- SocketLocator.count (socket.py lines 544-545): the correlated call it
issues, as (event name, payload). -/
def SocketLocator.count (l : SocketLocator) : String × Dict :=
  ("locator_count",
   [("parent_id", Value.str l.parent_id), ("selector", Value.str l.selector),
    ("exact", Value.bool l.exact)])

theorem find?_overwrite_self (t : Dict) (k : String) (v : Value) :
    (t.map (fun p => if p.1 == k then (k, v) else p)).find? (fun p => p.1 == k) =
      if t.any (fun p => p.1 == k) then some (k, v) else none := by
  induction t with
  | nil => rfl
  | cons p t ih =>
    by_cases hp : p.1 == k
    · simp [List.find?, hp]
    · simp only [List.map_cons, List.any_cons, hp, if_neg, Bool.false_or]
      rw [List.find?_cons_of_neg _ (by simpa using hp)]
      exact ih

theorem find?_overwrite_other (t : Dict) (k k' : String) (v : Value) (h : k' ≠ k) :
    (t.map (fun p => if p.1 == k then (k, v) else p)).find? (fun p => p.1 == k') =
      t.find? (fun p => p.1 == k') := by
  induction t with
  | nil => rfl
  | cons p t ih =>
    by_cases hp : p.1 == k
    · have hp' : p.1 = k := by simpa using hp
      have hk : (k == k') = false := by simp [Ne.symm h]
      have hk2 : (p.1 == k') = false := by simp [hp', Ne.symm h]
      simp only [List.map_cons, hp, if_pos]
      rw [List.find?_cons_of_neg _ (by simp [hk]),
          List.find?_cons_of_neg _ (by simp [hk2])]
      exact ih
    · simp only [List.map_cons, hp, if_neg]
      by_cases hq : p.1 == k'
      · rw [List.find?_cons_of_pos _ (by simpa using hq),
            List.find?_cons_of_pos _ (by simpa using hq)]
        simp [hp]
      · rw [List.find?_cons_of_neg _ (by simpa using hq),
            List.find?_cons_of_neg _ (by simpa using hq)]
        exact ih

theorem Dict.get_set_self (d : Dict) (k : String) (v : Value) :
    (Dict.set d k v).get k = some v := by
  unfold Dict.set Dict.get
  by_cases h : d.any (fun p => p.1 == k)
  · simp only [h, if_true]
    rw [find?_overwrite_self, h]
    rfl
  · simp only [h, if_false]
    have hnone : d.find? (fun p => p.1 == k) = none := by
      rw [List.find?_eq_none]
      intro x hx hxk
      exact h (List.any_of_mem hx hxk)
    simp [List.find?_append, hnone]

theorem Dict.get_set_of_ne (d : Dict) (k k' : String) (v : Value) (h : k' ≠ k) :
    (Dict.set d k v).get k' = d.get k' := by
  unfold Dict.set Dict.get
  by_cases ha : d.any (fun p => p.1 == k)
  · simp only [ha, if_true]
    rw [find?_overwrite_other _ _ _ _ h]
  · have hk : (k == k') = false := by simp [Ne.symm h]
    simp [ha, List.find?_append, hk, Option.or_none]

/-! Helper lemmas about the response handler. -/

theorem on_response_bcid (st : CorrState) (m : RespMsg) :
    (on_response st m).bcid = st.bcid := by
  unfold on_response
  repeat' split
  all_goals rfl

theorem on_response_of_target_mismatch (st : CorrState) (m : RespMsg)
    (h : m.browser_client_id ≠ st.bcid) :
    on_response st m = st := by
  simp [on_response, h]

theorem on_response_of_not_registered (st : CorrState) (m : RespMsg) (r : String)
    (hid : m.req_id = some r) (h : r ∉ st.futures) :
    on_response st m = st := by
  unfold on_response
  split
  · rfl
  · rw [hid]
    simp [h]

theorem on_response_resolve (st : CorrState) (m : RespMsg) (r : String)
    (hb : m.browser_client_id = st.bcid) (hid : m.req_id = some r)
    (hr : r ≠ "") (hmem : r ∈ st.futures) :
    on_response st m =
      { st with futures := st.futures.erase r,
                resolved := st.resolved ++ [(r, m.result)] } := by
  unfold on_response
  rw [hid]
  simp [hb, hr, hmem]

theorem on_response_futures_sublist (st : CorrState) (m : RespMsg) :
    (on_response st m).futures.Sublist st.futures := by
  unfold on_response
  repeat' split
  all_goals first
    | exact List.Sublist.refl _
    | exact List.erase_sublist _ _

theorem on_response_cases (st : CorrState) (m : RespMsg) :
    on_response st m = st ∨
    ∃ r, m.req_id = some r ∧ r ≠ "" ∧ r ∈ st.futures ∧
      m.browser_client_id = st.bcid ∧
      on_response st m =
        { st with futures := st.futures.erase r,
                  resolved := st.resolved ++ [(r, m.result)] } := by
  unfold on_response
  split
  · exact Or.inl rfl
  · next hb =>
    split
    · exact Or.inl rfl
    · next r heq =>
      split
      · next hcond =>
        exact Or.inr ⟨r, heq, hcond.1, hcond.2, not_not.mp hb, rfl⟩
      · exact Or.inl rfl

theorem on_response_preserves_other (st : CorrState) (m : RespMsg) (r : String)
    (hne : m.req_id ≠ some r) :
    (r ∈ (on_response st m).futures ↔ r ∈ st.futures) ∧
      receivedResult (on_response st m) r = receivedResult st r := by
  rcases on_response_cases st m with h | ⟨k, hk, _, _, _, h⟩
  · rw [h]
    exact ⟨Iff.rfl, rfl⟩
  · have hkr : k ≠ r := by
      intro e
      exact hne (e ▸ hk)
    rw [h]
    constructor
    · exact List.mem_erase_of_ne (Ne.symm hkr)
    · unfold receivedResult
      simp only
      rw [List.find?_append]
      have hnone : List.find? (fun p => p.1 == r) [(k, m.result)] = none := by
        simp [hkr]
      rw [hnone, Option.or_none]

theorem on_response_persist (st : CorrState) (m : RespMsg) (r : String) (v : Value)
    (hres : receivedResult st r = some v) (hout : r ∉ st.futures) :
    receivedResult (on_response st m) r = some v ∧
      r ∉ (on_response st m).futures := by
  rcases on_response_cases st m with h | ⟨k, _, _, hkmem, _, h⟩
  · rw [h]
    exact ⟨hres, hout⟩
  · have hkr : k ≠ r := by
      intro e
      exact hout (e ▸ hkmem)
    rw [h]
    constructor
    · unfold receivedResult at hres ⊢
      simp only
      rw [List.find?_append]
      obtain ⟨p, hp, hpv⟩ := Option.map_eq_some'.mp hres
      rw [hp]
      simp [hpv]
    · intro hmem
      exact hout (List.mem_of_mem_erase hmem)

theorem processAll_preserves_other (st : CorrState) (msgs : List RespMsg) (r : String)
    (h : ∀ m ∈ msgs, m.req_id ≠ some r) :
    (r ∈ (processAll st msgs).futures ↔ r ∈ st.futures) ∧
      receivedResult (processAll st msgs) r = receivedResult st r := by
  induction msgs generalizing st with
  | nil => exact ⟨Iff.rfl, rfl⟩
  | cons m t ih =>
    have h1 := on_response_preserves_other st m r (h m (List.mem_cons_self m t))
    have h2 := ih (on_response st m) (fun m' hm' => h m' (List.mem_cons_of_mem m hm'))
    exact ⟨h2.1.trans h1.1, h2.2.trans h1.2⟩

theorem processAll_persist (st : CorrState) (msgs : List RespMsg) (r : String) (v : Value)
    (hres : receivedResult st r = some v) (hout : r ∉ st.futures) :
    receivedResult (processAll st msgs) r = some v ∧
      r ∉ (processAll st msgs).futures := by
  induction msgs generalizing st with
  | nil => exact ⟨hres, hout⟩
  | cons m t ih =>
    have h1 := on_response_persist st m r v hres hout
    exact ih (on_response st m) h1.1 h1.2

theorem processAll_bcid (st : CorrState) (msgs : List RespMsg) :
    (processAll st msgs).bcid = st.bcid := by
  induction msgs generalizing st with
  | nil => rfl
  | cons m t ih => exact (ih (on_response st m)).trans (on_response_bcid st m)

theorem processAll_futures_sublist (st : CorrState) (msgs : List RespMsg) :
    (processAll st msgs).futures.Sublist st.futures := by
  induction msgs generalizing st with
  | nil => exact List.Sublist.refl _
  | cons m t ih =>
    exact (ih (on_response st m)).trans (on_response_futures_sublist st m)

theorem emitCall_state (st : CorrState) (event : String) (data : Dict) (req_id : String) :
    (emitCall st event data req_id).1 =
      { st with futures := st.futures ++ [req_id] } := by
  unfold emitCall
  cases st.bcid with
  | none => rfl
  | some t =>
    by_cases ht : t = "" <;> simp [ht]

/-- C1: for every call issued through SocketRequestManager.emit, the value
the awaiting caller receives is the result field of the inbound response
message whose req_id equals the identifier generated for that call,
regardless of how many other calls are in flight (the initial futures map
is arbitrary) and regardless of the order in which responses arrive (any
responses for other requests may arrive before the matching one, and
arbitrary traffic may follow it). -/
theorem c1_correlated_delivery
    (st : CorrState) (event : String) (data : Dict) (r : String)
    (pre post : List RespMsg) (m : RespMsg)
    (hfresh : r ∉ st.futures)
    (hres : receivedResult st r = none)
    (hnd : st.futures.Nodup)
    (hb : m.browser_client_id = st.bcid)
    (hid : m.req_id = some r) (hr : r ≠ "")
    (hpre : ∀ m' ∈ pre, m'.req_id ≠ some r) :
    receivedResult (processAll (emitCall st event data r).1 (pre ++ m :: post)) r
        = some m.result ∧
      r ∉ (processAll (emitCall st event data r).1 (pre ++ m :: post)).futures := by
  rw [emitCall_state]
  have hsplit :
      processAll { st with futures := st.futures ++ [r] } (pre ++ m :: post) =
        processAll
          (on_response (processAll { st with futures := st.futures ++ [r] } pre) m)
          post := by
    unfold processAll
    rw [List.foldl_append]
    rfl
  rw [hsplit]
  have hnd₁ : (st.futures ++ [r]).Nodup := by
    rw [List.nodup_append]
    refine ⟨hnd, List.nodup_singleton r, ?_⟩
    intro a ha har
    rw [List.mem_singleton] at har
    exact hfresh (har ▸ ha)
  have hP := processAll_preserves_other { st with futures := st.futures ++ [r] } pre r hpre
  have hmem₂ : r ∈ (processAll { st with futures := st.futures ++ [r] } pre).futures := by
    refine hP.1.mpr ?_
    exact List.mem_append_right _ (List.mem_singleton_self r)
  have hres₂ : receivedResult (processAll { st with futures := st.futures ++ [r] } pre) r = none := by
    rw [hP.2]
    exact hres
  have hb₂ : m.browser_client_id = (processAll { st with futures := st.futures ++ [r] } pre).bcid := by
    rw [processAll_bcid]
    exact hb
  have hnd₂ : (processAll { st with futures := st.futures ++ [r] } pre).futures.Nodup :=
    List.Nodup.sublist (processAll_futures_sublist _ pre) hnd₁
  rw [on_response_resolve _ m r hb₂ hid hr hmem₂]
  apply processAll_persist
  · unfold receivedResult at hres₂ ⊢
    simp only
    rw [List.find?_append, Option.map_eq_none'.mp hres₂]
    simp
  · exact List.Nodup.not_mem_erase hnd₂

/-- Witness for C1: with one other call (id rB) already in flight, call rA
is issued, the response for rB arrives first, then the response for rA;
the caller of rA receives exactly the result vA carried by the response
whose req_id is rA. -/
theorem c1_correlated_delivery_witness :
    receivedResult
        (processAll (emitCall ⟨some "T", ["rB"], []⟩ "page_content" [] "rA").1
          ([⟨some "T", some "rB", Value.str "vB"⟩] ++
            (⟨some "T", some "rA", Value.str "vA"⟩ : RespMsg) :: [])) "rA"
      = some (Value.str "vA") ∧
    "rA" ∉ (processAll (emitCall ⟨some "T", ["rB"], []⟩ "page_content" [] "rA").1
          ([⟨some "T", some "rB", Value.str "vB"⟩] ++
            (⟨some "T", some "rA", Value.str "vA"⟩ : RespMsg) :: [])).futures := by
  refine c1_correlated_delivery ⟨some "T", ["rB"], []⟩ "page_content" [] "rA"
    [⟨some "T", some "rB", Value.str "vB"⟩] []
    ⟨some "T", some "rA", Value.str "vA"⟩
    (by decide) rfl (by decide) rfl rfl (by decide) ?_
  intro m' hm'
  rw [List.mem_singleton] at hm'
  subst hm'
  decide

/-- C2: an inbound response message whose browser_client_id field differs
from the configured browser_client_id resolves no pending future and
leaves the whole manager state, in particular the pending-call map,
completely unchanged. -/
theorem c2_target_mismatch_ignored (st : CorrState) (m : RespMsg)
    (h : m.browser_client_id ≠ st.bcid) :
    on_response st m = st :=
  on_response_of_target_mismatch st m h

/-- Witness for C2: a response addressed to target U, with a req_id that
is pending, received by a manager configured for target T, changes
nothing. -/
theorem c2_target_mismatch_ignored_witness :
    on_response ⟨some "T", ["r1"], []⟩ ⟨some "U", some "r1", Value.str "v"⟩ =
      ⟨some "T", ["r1"], []⟩ :=
  c2_target_mismatch_ignored ⟨some "T", ["r1"], []⟩
    ⟨some "U", some "r1", Value.str "v"⟩ (by decide)

/-- C3: each pending call is resolved at most once. The first matching
response removes the pending entry for its req_id from the futures map and
delivers the result to the caller; a subsequent response carrying the same
req_id, or any response whose req_id has no registered pending call, is a
no-op that changes no state. -/
theorem c3_at_most_once (st : CorrState) (m : RespMsg) (r : String)
    (hb : m.browser_client_id = st.bcid) (hid : m.req_id = some r)
    (hr : r ≠ "") (hmem : r ∈ st.futures) (hnd : st.futures.Nodup) :
    (on_response st m).futures = st.futures.erase r ∧
    r ∉ (on_response st m).futures ∧
    (on_response st m).resolved = st.resolved ++ [(r, m.result)] ∧
    (∀ m₂ : RespMsg, m₂.req_id = some r →
        on_response (on_response st m) m₂ = on_response st m) ∧
    (∀ (st₀ : CorrState) (m₀ : RespMsg) (r₀ : String),
        m₀.req_id = some r₀ → r₀ ∉ st₀.futures → on_response st₀ m₀ = st₀) := by
  have hstep := on_response_resolve st m r hb hid hr hmem
  rw [hstep]
  refine ⟨rfl, ?_, rfl, ?_, ?_⟩
  · exact List.Nodup.not_mem_erase hnd
  · intro m₂ h₂
    exact on_response_of_not_registered _ m₂ r h₂ (List.Nodup.not_mem_erase hnd)
  · intro st₀ m₀ r₀ h₀ hmem₀
    exact on_response_of_not_registered st₀ m₀ r₀ h₀ hmem₀

/-- Witness for C3: resolving the only pending call empties the futures
map, and a second response with the same req_id changes nothing. -/
theorem c3_at_most_once_witness :
    (on_response ⟨some "T", ["r1"], []⟩ ⟨some "T", some "r1", Value.str "v"⟩).futures = [] ∧
    on_response (on_response ⟨some "T", ["r1"], []⟩ ⟨some "T", some "r1", Value.str "v"⟩)
        ⟨some "T", some "r1", Value.str "w"⟩ =
      on_response ⟨some "T", ["r1"], []⟩ ⟨some "T", some "r1", Value.str "v"⟩ := by
  have h := c3_at_most_once ⟨some "T", ["r1"], []⟩
    ⟨some "T", some "r1", Value.str "v"⟩ "r1"
    rfl rfl (by decide) (by decide) (by decide)
  refine ⟨?_, h.2.2.2.1 ⟨some "T", some "r1", Value.str "w"⟩ rfl⟩
  rw [h.1]
  decide

/-- Counterexample to C4 as stated: with routing target T configured, an
emit of verb page_click with empty caller payload and request id R does
not produce a browser_command payload whose data field is just the caller
payload with req_id merged in; the code also merges the routing target
into the data dictionary (key target_browser_client_id). -/
theorem c4_wire_shape_counterexample :
    (emitCall ⟨some "T", [], []⟩ "page_click" [] "R").2 ≠
      ("browser_command", Value.vdict
        [("browser_client_id", Value.str "T"),
         ("command", Value.str "page_click"),
         ("data", Value.vdict (Dict.set [] "req_id" (Value.str "R")))]) := by
  simp [emitCall, Dict.set]

/-- C4 (amended): when a truthy routing target t is configured, the
outbound message is emitted under the event name browser_command with
payload consisting exactly of browser_client_id mapped to t, command
mapped to the verb, and data mapped to the caller payload with req_id and
the routing target (under key target_browser_client_id) merged in; when no
truthy routing target is configured, the message is emitted directly under
the verb with the caller payload plus req_id. -/
theorem c4_outbound_dispatch (st : CorrState) (event : String) (data : Dict)
    (rid : String) :
    (∀ t, st.bcid = some t → t ≠ "" →
      (emitCall st event data rid).2.1 = "browser_command" ∧
      ∃ d : Dict,
        (emitCall st event data rid).2.2 = Value.vdict
          [("browser_client_id", Value.str t), ("command", Value.str event),
           ("data", Value.vdict d)] ∧
        Dict.get d "req_id" = some (Value.str rid) ∧
        Dict.get d "target_browser_client_id" = some (Value.str t) ∧
        (∀ k, k ≠ "req_id" → k ≠ "target_browser_client_id" →
          Dict.get d k = Dict.get data k)) ∧
    (truthyStr st.bcid = false →
      (emitCall st event data rid).2.1 = event ∧
      ∃ d : Dict,
        (emitCall st event data rid).2.2 = Value.vdict d ∧
        Dict.get d "req_id" = some (Value.str rid) ∧
        (∀ k, k ≠ "req_id" → Dict.get d k = Dict.get data k)) := by
  constructor
  · intro t ht htne
    have h2 : (emitCall st event data rid).2 =
        ("browser_command", Value.vdict
          [("browser_client_id", Value.str t), ("command", Value.str event),
           ("data", Value.vdict (Dict.set (Dict.set data "req_id" (Value.str rid))
             "target_browser_client_id" (Value.str t)))]) := by
      unfold emitCall
      rw [ht]
      simp [htne]
    refine ⟨by rw [h2],
      Dict.set (Dict.set data "req_id" (Value.str rid))
        "target_browser_client_id" (Value.str t),
      by rw [h2], ?_, Dict.get_set_self _ _ _, ?_⟩
    · rw [Dict.get_set_of_ne _ _ _ _ (by decide)]
      exact Dict.get_set_self _ _ _
    · intro k hk1 hk2
      rw [Dict.get_set_of_ne _ _ _ _ hk2, Dict.get_set_of_ne _ _ _ _ hk1]
  · intro hf
    cases hbc : st.bcid with
    | none =>
      have h2 : (emitCall st event data rid).2 =
          (event, Value.vdict (Dict.set data "req_id" (Value.str rid))) := by
        unfold emitCall
        rw [hbc]
      refine ⟨by rw [h2], Dict.set data "req_id" (Value.str rid), by rw [h2],
        Dict.get_set_self _ _ _, fun k hk => Dict.get_set_of_ne _ _ _ _ hk⟩
    | some s =>
      have hs : s = "" := by
        rw [hbc] at hf
        simpa [truthyStr] using hf
      have h2 : (emitCall st event data rid).2 =
          (event, Value.vdict (Dict.set data "req_id" (Value.str rid))) := by
        unfold emitCall
        rw [hbc, hs]
        simp
      refine ⟨by rw [h2], Dict.set data "req_id" (Value.str rid), by rw [h2],
        Dict.get_set_self _ _ _, fun k hk => Dict.get_set_of_ne _ _ _ _ hk⟩

/-- Witness for C4 (amended), routed case: target T, verb page_goto,
caller payload with one url key, request id R. -/
theorem c4_outbound_dispatch_witness :
    (emitCall ⟨some "T", [], []⟩ "page_goto" [("url", Value.str "x")] "R").2.1
        = "browser_command" ∧
    ∃ d : Dict,
      (emitCall ⟨some "T", [], []⟩ "page_goto" [("url", Value.str "x")] "R").2.2
          = Value.vdict
        [("browser_client_id", Value.str "T"), ("command", Value.str "page_goto"),
         ("data", Value.vdict d)] ∧
      Dict.get d "req_id" = some (Value.str "R") ∧
      Dict.get d "target_browser_client_id" = some (Value.str "T") ∧
      (∀ k, k ≠ "req_id" → k ≠ "target_browser_client_id" →
        Dict.get d k = Dict.get [("url", Value.str "x")] k) :=
  (c4_outbound_dispatch ⟨some "T", [], []⟩ "page_goto"
    [("url", Value.str "x")] "R").1 "T" rfl (by decide)

/-- C5 evidence (code bug): reading the url property of a SocketPage or a
SocketFrame performs no correlated fetch and reports nothing unavailable;
it returns the internal opaque id itself as a stand-in value, for every
handle: SocketPage.url is the page id and SocketFrame.url is the frame id. -/
theorem c5_url_returns_internal_id :
    (∀ p : SocketPage, SocketPage.url p = p.page_id) ∧
    (∀ f : SocketFrame, SocketFrame.url f = f.frame_id) :=
  ⟨fun _ => rfl, fun _ => rfl⟩

/-- C7: when the transport rejects the inline authentication payload at
connect time (a TypeError from the connect signature), setup retries with
a bare connect, then emits a client_auth event carrying the same payload
(clientType python, clientId the generated id), surfaces no error to the
caller, and establishment proceeds to the bootstrap call. -/
theorem c7_auth_fallback (wss cdp : Option String) (u cid : String)
    (hurl : pyOr wss cdp = some u) (hu : u ≠ "") :
    SocketBrowser.setup wss cdp false cid =
      ([SetupEvent.connectWithAuth u (authData cid), SetupEvent.connectBare u,
        SetupEvent.emitEvent "client_auth" (authData cid),
        SetupEvent.bootstrapCall "get_version"], Except.ok ()) := by
  unfold SocketBrowser.setup
  rw [hurl]
  simp [hu]

/-- Witness for C7: a configured wss endpoint with a transport that
rejects inline auth yields exactly the fallback action sequence and
success. -/
theorem c7_auth_fallback_witness :
    SocketBrowser.setup (some "wss-endpoint") none false "cid-1" =
      ([SetupEvent.connectWithAuth "wss-endpoint" (authData "cid-1"),
        SetupEvent.connectBare "wss-endpoint",
        SetupEvent.emitEvent "client_auth" (authData "cid-1"),
        SetupEvent.bootstrapCall "get_version"], Except.ok ()) :=
  c7_auth_fallback (some "wss-endpoint") none "wss-endpoint" "cid-1" rfl (by decide)

/-- C8: session establishment fails with the missing-endpoint
configuration error when neither wss_url nor cdp_url is truthy, and the
empty action trace shows the failure happens before any transport
connection attempt. -/
theorem c8_missing_endpoint (wss cdp : Option String) (b : Bool) (cid : String)
    (h1 : truthyStr wss = false) (h2 : truthyStr cdp = false) :
    SocketBrowser.setup wss cdp b cid =
      ([], Except.error "SocketBrowser requires wss_url or cdp_url for socket.io endpoint") := by
  have hor : pyOr wss cdp = cdp := by
    simp [pyOr, h1]
  unfold SocketBrowser.setup
  rw [hor]
  cases hc : cdp with
  | none => rfl
  | some s =>
    have hs : s = "" := by
      rw [hc] at h2
      simpa [truthyStr] using h2
    simp [hs]

/-- Witness for C8: no endpoint configured at all. -/
theorem c8_missing_endpoint_witness :
    SocketBrowser.setup none none true "cid-2" =
      ([], Except.error "SocketBrowser requires wss_url or cdp_url for socket.io endpoint") :=
  c8_missing_endpoint none none true "cid-2" rfl rfl

/-- C9: remote entity ids round-trip unchanged. The context handle built
from a new_context response carries the received contextId and its close
call sends exactly that string as context_id; the element handle built
from a query_selector result carries the received element id and its
click call sends exactly that string as element_id. -/
theorem c9_id_round_trip (req : Nat) (contextId : String) (pageIds : List String)
    (p : SocketPage) (elId : String) (args kwargs : Value) (h : elId ≠ "") :
    (SocketBrowser.new_context req contextId pageIds).ctx_id = contextId ∧
    Dict.get (SocketContext.close (SocketBrowser.new_context req contextId pageIds)).2
        "context_id" = some (Value.str contextId) ∧
    ∃ e : SocketElementHandle,
      SocketPage.query_selector p (some elId) = some e ∧
      e.el_id = elId ∧
      Dict.get (SocketElementHandle.click e args kwargs).2 "element_id"
        = some (Value.str elId) := by
  refine ⟨rfl, rfl, ⟨p.req, elId, p.page_id⟩, ?_, rfl, rfl⟩
  unfold SocketPage.query_selector
  simp [h]

/-- Witness for C9: context id ctx-7 and element id el-9 are forwarded
character for character. -/
theorem c9_id_round_trip_witness :
    (SocketBrowser.new_context 0 "ctx-7" ["p1"]).ctx_id = "ctx-7" ∧
    Dict.get (SocketContext.close (SocketBrowser.new_context 0 "ctx-7" ["p1"])).2
        "context_id" = some (Value.str "ctx-7") ∧
    ∃ e : SocketElementHandle,
      SocketPage.query_selector ⟨0, "p1"⟩ (some "el-9") = some e ∧
      e.el_id = "el-9" ∧
      Dict.get (SocketElementHandle.click e Value.null Value.null).2 "element_id"
        = some (Value.str "el-9") :=
  c9_id_round_trip 0 "ctx-7" ["p1"] ⟨0, "p1"⟩ "el-9" Value.null Value.null (by decide)

/-- C10 (implicit): SocketLocator.nth discards its index argument: the
locators built for any two indices are equal, each is equal to the
receiver itself field for field (same manager reference, parent id,
selector, exact flag and page id), and the remote query such a locator
issues (for example locator_count) is identical to the one the receiver
issues. -/
theorem c10_nth_discards_index (l : SocketLocator) (i j : Int) :
    SocketLocator.nth l i = SocketLocator.nth l j ∧
    SocketLocator.nth l i = l ∧
    SocketLocator.count (SocketLocator.nth l i) = SocketLocator.count l :=
  ⟨rfl, rfl, rfl⟩

/-! Helper lemmas for the data-url match. -/

theorem mk_toList (s : String) : String.mk s.toList = s := rfl

